import Mathlib

/-!
Verification of the Azure Blob virtual-filesystem backend of TileDB
(`core/src/storage_manager/storage_azure_blob.cc`) and of the image-panel
example checker (`examples/src/tiledb_image_read_panels.cc`), as a shallow
embedding in Lean.

The blob store is modelled as an association list from blob names to blob
contents; a blob's bytes are a function `Nat → Nat` together with a length,
so that blobs of arbitrary size (the code compares sizes against multi-MiB
constants) stay evaluable.  Fallible remote calls (`create_append_blob`,
`upload_block_from_buffer`, `put_block_list`, `delete_blob`) are driven by a
`Client` record of failure-injection predicates; the all-succeed client is
`okClient`.  Paths are container-relative strings: the `"://"` URI branches
of `get_path`/`create_dir` delegate to `azure_uri`, which is outside the
embedded sources, and are not part of the model's path domain.
-/

set_option maxHeartbeats 1000000

namespace TileDBAzure

/-- TileDB filesystem success return code `TILEDB_FS_OK`. -/
def TILEDB_FS_OK : Int := 0

/-- TileDB filesystem error return code `TILEDB_FS_ERR`. -/
def TILEDB_FS_ERR : Int := -1

/-- Macro `GRAIN_SIZE` from storage_azure_blob.cc: `(4*1024*1024)`. -/
def GRAIN_SIZE : Nat := 4 * 1024 * 1024

namespace constants

/-- azure-storage-lite `constants::default_block_size`; the source comments it
as "8M" when setting `download_buffer_size_`. -/
def default_block_size : Nat := 8 * 1024 * 1024

/-- azure-storage-lite `constants::max_block_size`; the source comments it as
"100M" when setting `upload_buffer_size_`. -/
def max_block_size : Nat := 100 * 1024 * 1024

/-- Modelled from the spec: `constants::max_num_blocks` lives in the
azure-storage-lite dependency, which is not among the sources; Azure block
blobs admit at most 50000 blocks, matching the spec's "maximum block count". -/
def max_num_blocks : Nat := 50000

end constants

/-- Marker blob suffix, macro `MARKER` in storage_azure_blob.cc. -/
def MARKER : String := ".dir.marker"

/-- Utility `starts_with` from utils (kernel-reducible, over the char list). -/
def starts_with (s pre : String) : Bool := pre.data.isPrefixOf s.data

/-- Whether a string ends with a suffix (kernel-reducible). -/
def ends_with (s suf : String) : Bool := suf.data.isSuffixOf s.data

/-- Drop the first `n` characters (kernel-reducible). -/
def str_drop (s : String) (n : Nat) : String := ⟨s.data.drop n⟩

/-- Whether a string is empty (kernel-reducible). -/
def str_is_empty (s : String) : Bool := s.data.isEmpty

/-- Utility `slashify` (declared in utils.h, definition outside the sources):
append a trailing slash when one is missing. -/
def slashify (s : String) : String := if ends_with s "/" then s else s ++ "/"

/-- `AzureBlob::get_path` restricted to container-relative paths (no `"://"`).
Mirrors the source order: a leading '/' is stripped; an empty path resolves to
the working directory; a path already carrying the working directory as prefix
is returned unchanged; otherwise the working directory is prepended. -/
def get_path (working_dir : String) (path : String) : String :=
  if starts_with path "/" then str_drop path 1
  else if str_is_empty path then working_dir
  else if starts_with path working_dir then path
  else working_dir ++ "/" ++ path

/-- A stored blob: its byte length and its bytes (`data k` for `k < size`). -/
structure Blob where
  size : Nat
  data : Nat → Nat

/-- Failure injection for the remote blob service: each predicate names the
blob paths on which the corresponding client call fails. -/
structure Client where
  createAppendFails : String → Bool
  uploadFails : String → Bool
  putBlockListFails : String → Bool
  deleteFails : String → Bool

/-- The client on which every remote call succeeds. -/
def okClient : Client :=
  ⟨fun _ => false, fun _ => false, fun _ => false, fun _ => false⟩

/-- The visible remote state: committed blobs, staged (uploaded, uncommitted)
blocks per blob path keyed by block id, and the `write_map_` of pending block
ids per blob path. -/
structure State where
  blobs : List (String × Blob)
  staged : List (String × List (String × List Nat))
  writeMap : List (String × List String)

/-- Remove the entry of key `k` from an association list. -/
def eraseKey {α : Type} (m : List (String × α)) (k : String) : List (String × α) :=
  m.filter (fun p => p.1 != k)

/-- Insert or replace the entry of key `k`. -/
def upsert {α : Type} (m : List (String × α)) (k : String) (v : α) : List (String × α) :=
  (k, v) :: eraseKey m k

/-- `AzureBlob::is_file`: `bc->blob_exists(container_name, get_path(file))`. -/
def is_file (wd : String) (s : State) (file : String) : Bool :=
  (s.blobs.lookup (get_path wd file)).isSome

/-- `AzureBlob::file_size`: the blob property's size, or `TILEDB_FS_ERR` when
the properties are not valid (no such blob). -/
def file_size (wd : String) (s : State) (filename : String) : Int :=
  match s.blobs.lookup (get_path wd filename) with
  | some b => (b.size : Int)
  | none => TILEDB_FS_ERR

/-- Which download call `AzureBlob::read_from_file` issued: none at all, one
`download_blob_to_stream` range GET, or the parallel
`download_blob_to_buffer`. -/
inductive ReadMethod
  | noRead
  | singleGet
  | parallelGet
deriving DecidableEq

/-- Result of `AzureBlob::read_from_file`: the return code, the bytes put into
the caller's buffer, and the download call used. -/
structure ReadResult where
  rc : Int
  data : List Nat
  method : ReadMethod

/-- `AzureBlob::read_from_file`.  Checks `is_file`, then `file_size` validity,
then `filesize < length + offset`, then `length == 0`; otherwise downloads the
byte range `[offset, offset+length)`, by a single stream GET when
`filesize < GRAIN_SIZE` and by the parallel buffer download otherwise. -/
def read_from_file (wd : String) (s : State) (filename : String)
    (offset length : Nat) : ReadResult :=
  if !is_file wd s filename then ⟨TILEDB_FS_ERR, [], .noRead⟩
  else
    match s.blobs.lookup (get_path wd filename) with
    | none => ⟨TILEDB_FS_ERR, [], .noRead⟩
    | some b =>
      if b.size < length + offset then ⟨TILEDB_FS_ERR, [], .noRead⟩
      else if length = 0 then ⟨TILEDB_FS_OK, [], .noRead⟩
      else if b.size < GRAIN_SIZE then
        ⟨TILEDB_FS_OK, (List.range length).map (fun k => b.data (offset + k)), .singleGet⟩
      else
        ⟨TILEDB_FS_OK, (List.range length).map (fun k => b.data (offset + k)), .parallelGet⟩

/-- `AzureBlob::locking_support`: "No file locking available for distributed
file systems". -/
def locking_support : Bool := false

/-- One listing entry of `list_blobs_segmented` with delimiter "/": a blob
whose remainder after the prefix holds no '/' lists as itself (a file entry);
otherwise its first path component folds into a directory entry whose name
carries a trailing slash and whose `is_directory` flag is set. -/
def entry_of (pre : String) (name : String) : String × Bool :=
  let rest := str_drop name pre.data.length
  if rest.data.contains '/' then
    (pre ++ ⟨rest.data.takeWhile (fun a => a != '/')⟩ ++ "/", true)
  else (name, false)

/-- `blob_client_wrapper::list_blobs_segmented(container, "/", token, prefix,
maxresults)`: the deduplicated entries under the prefix, truncated to
`maxresults`. -/
def list_blobs_segmented (blobs : List (String × Blob)) (pre : String)
    (maxresults : Nat) : List (String × Bool) :=
  ((blobs.filterMap (fun p =>
      if starts_with p.1 pre then some (entry_of pre p.1) else none)).dedup).take
    maxresults

/-- `AzureBlob::is_dir`: true when the path is empty, or resolves to the
container root (`get_path` empty), or the `.dir.marker` blob of the slashified
path exists, or at least one blob lists under the slashified resolved prefix
(`list_blobs_segmented` with maxresults 1, checked for `size() > 0`). -/
def is_dir (wd : String) (s : State) (dir : String) : Bool :=
  str_is_empty dir || str_is_empty (get_path wd dir)
    || is_file wd s (slashify dir ++ MARKER)
    || !(list_blobs_segmented s.blobs (slashify (get_path wd dir)) 1).isEmpty

/-- Modelled from the spec: `generate_block_ids` is only declared in the
sources; per the spec every block is tagged with a deterministic id, so the id
of a block is a pure function of the blob path and the block's index among all
blocks staged for that path. -/
def block_id (path : String) (i : Nat) : String :=
  path ++ "-block-" ++ toString i

/-- Modelled from the spec: the ids `generate_block_ids(path, num_blocks)`
hands to `upload_block_blob`, continuing after the `start` ids already pending
for the path. -/
def generate_block_ids (path : String) (start num : Nat) : List String :=
  (List.range num).map (fun i => block_id path (start + i))

/-- Block-size computation of `AzureBlob::write_to_file`:
`buffer_size/max_num_blocks`, rounded up to the 4 MiB grain, capped at
`max_block_size`, floored at `default_block_size`. -/
def block_size_calc (buffer_size : Nat) : Nat :=
  let bs := buffer_size / constants.max_num_blocks
  let bs := (bs + GRAIN_SIZE - 1) / GRAIN_SIZE * GRAIN_SIZE
  let bs := min bs constants.max_block_size
  max bs constants.default_block_size

/-- `num_blocks = int((buffer_size + block_size-1)/block_size)` from
`AzureBlob::write_to_file`. -/
def num_blocks_calc (buffer_size : Nat) : Nat :=
  (buffer_size + block_size_calc buffer_size - 1) / block_size_calc buffer_size

/-- The byte run block `i` of `upload_block_blob`'s worker loop uploads:
`block_buffer = buffer + block_size*i` and
`block_size = min(block_size, blob_size - block_size*i)`. -/
def upload_chunk (block_size : Nat) (buffer : Nat → Nat) (buffer_size i : Nat) :
    List Nat :=
  (List.range (min block_size (buffer_size - block_size * i))).map
    (fun k => buffer (block_size * i + k))

/-- All blocks `upload_block_blob` stages for one buffer. -/
def upload_chunks (block_size num_blocks : Nat) (buffer : Nat → Nat)
    (buffer_size : Nat) : List (List Nat) :=
  (List.range num_blocks).map (fun i => upload_chunk block_size buffer buffer_size i)

/-- Effective upload parallelism: `upload_block_blob` clamps the requested
parallelism by the client's concurrency, and the client was constructed with
`std::thread::hardware_concurrency()` threads. -/
def upload_parallelism (hardware_concurrency requested : Nat) : Nat :=
  min requested hardware_concurrency

/-- Result of a state-changing filesystem call: return code, resulting remote
state, and the `AZ_BLOB_ERROR` message recorded, if any. -/
structure FsResult where
  rc : Int
  st : State
  err : Option String

/-- `AzureBlob::write_to_file`.  A zero-length write to a fresh path creates
an append blob; otherwise the parent directory (via `parent_dir`, abstracted
as `pd`) must exist and the buffer must fit in `max_num_blocks` blocks of
`max_block_size`; the buffer is then cut into `num_blocks` blocks of
`block_size` bytes which `upload_block_blob` stages under the ids of
`generate_block_ids`; the staged blocks only become the visible blob at
`commit_file`'s `put_block_list`. -/
def write_to_file (pd : String → String) (wd : String) (c : Client) (s : State)
    (filename : String) (buffer : Nat → Nat) (buffer_size : Nat) : FsResult :=
  let path := get_path wd filename
  if buffer_size = 0 && !(s.blobs.lookup path).isSome then
    if c.createAppendFails path then
      ⟨TILEDB_FS_ERR, s, some "Could not create zero length file"⟩
    else
      ⟨TILEDB_FS_OK, { s with blobs := upsert s.blobs path ⟨0, fun _ => 0⟩ }, none⟩
  else if !(is_dir wd s (pd filename)) then
    ⟨TILEDB_FS_ERR, s, some "Parent dir does not seem to exist"⟩
  else if buffer_size > constants.max_num_blocks * constants.max_block_size then
    ⟨TILEDB_FS_ERR, s, some "Buffer size too large for azure upload"⟩
  else
    let block_size := block_size_calc buffer_size
    let num_blocks := num_blocks_calc buffer_size
    let start := ((s.writeMap.lookup path).getD []).length
    let ids := generate_block_ids path start num_blocks
    let s1 : State :=
      { s with writeMap := upsert s.writeMap path (((s.writeMap.lookup path).getD []) ++ ids) }
    if c.uploadFails path then ⟨TILEDB_FS_ERR, s1, some "upload failed"⟩
    else
      let blocks := (List.range num_blocks).map
        (fun i => (block_id path (start + i), upload_chunk block_size buffer buffer_size i))
      ⟨TILEDB_FS_OK,
       { s1 with staged := upsert s1.staged path (((s1.staged.lookup path).getD []) ++ blocks) },
       none⟩

/-- `AzureBlob::create_dir` for container-relative paths (the source's
`"://"` container early return is outside the model's path domain). -/
def create_dir (pd : String → String) (wd : String) (c : Client) (s : State)
    (dir : String) : Int × State :=
  if str_is_empty (get_path wd dir) then (TILEDB_FS_OK, s)
  else if is_dir wd s dir then (TILEDB_FS_ERR, s)
  else if dir != wd && !(is_dir wd s (pd dir)) then (TILEDB_FS_ERR, s)
  else
    let w := write_to_file pd wd c s (slashify dir ++ MARKER) (fun _ => 0) 0
    if w.rc = TILEDB_FS_OK then
      if is_dir wd w.st dir then (TILEDB_FS_OK, w.st) else (TILEDB_FS_ERR, w.st)
    else (TILEDB_FS_ERR, w.st)

/-- `blob_client_wrapper::delete_blob` with failure injection: a sticky blob
survives the call (the source then sees it still exists and only logs). -/
def delete_blob (c : Client) (s : State) (name : String) : State :=
  if c.deleteFails name then s else { s with blobs := eraseKey s.blobs name }

/-- `INT_MAX`, the maxresults `delete_dir` lists with. -/
def INT_MAX : Nat := 2 ^ 31 - 1

/-- `AzureBlob::delete_dir`, recursion bounded by `fuel` (the source recurses
on listed directory entries).  Mirrors the source faithfully: `rc` starts as
`TILEDB_FS_OK`, a blob that still exists after `delete_blob` is only logged
(`rc` is never set to an error), the recursive call's return value is
discarded, and `rc` is returned. -/
def delete_dir (wd : String) (c : Client) : Nat → State → String → Int × State
  | 0, s, _ => (TILEDB_FS_ERR, s)
  | fuel + 1, s, dir =>
    if !(is_dir wd s dir) then (TILEDB_FS_ERR, s)
    else
      let entries := list_blobs_segmented s.blobs (slashify (get_path wd dir)) INT_MAX
      let s' := entries.foldl
        (fun st e => if e.2 then (delete_dir wd c fuel st e.1).2 else delete_blob c st e.1) s
      (TILEDB_FS_OK, s')

/-- The byte run `put_block_list` assembles for a path: the staged block
contents taken in block-list order. -/
def staged_bytes (s : State) (filepath : String) (ids : List String) : List Nat :=
  (ids.filterMap (fun i => ((s.staged.lookup filepath).getD []).lookup i)).flatten

/-- `blob_client::put_block_list`: commit the staged blocks listed by id as
the visible content of the blob. -/
def put_block_list (c : Client) (s : State) (filepath : String)
    (ids : List String) : Int × State :=
  if c.putBlockListFails filepath then (TILEDB_FS_ERR, s)
  else
    let bytes := staged_bytes s filepath ids
    (TILEDB_FS_OK,
     { s with
        blobs := upsert s.blobs filepath ⟨bytes.length, fun k => bytes.getD k 0⟩,
        staged := eraseKey s.staged filepath })

/-- Result of `AzureBlob::commit_file`: return code, resulting state, and
whether a `put_block_list` was issued. -/
structure CommitResult where
  rc : Int
  st : State
  did_put : Bool

/-- `AzureBlob::commit_file`: when `write_map_` holds pending block ids for
the resolved path, issue `put_block_list` and erase the entry whether or not
the put succeeded; with no pending entry, succeed without issuing anything. -/
def commit_file (wd : String) (c : Client) (s : State) (path : String) :
    CommitResult :=
  let filepath := get_path wd path
  match s.writeMap.lookup filepath with
  | some ids =>
    let r := put_block_list c s filepath ids
    ⟨r.1, { r.2 with writeMap := eraseKey r.2.writeMap filepath }, true⟩
  | none => ⟨TILEDB_FS_OK, s, false⟩

/-- `AzureBlob::sync_path` forwards to `commit_file`. -/
def sync_path (wd : String) (c : Client) (s : State) (path : String) :
    CommitResult :=
  commit_file wd c s path

/-- `AzureBlob::close_file` forwards to `commit_file`. -/
def close_file (wd : String) (c : Client) (s : State) (filename : String) :
    CommitResult :=
  commit_file wd c s filename

/-- A concrete store for the read-heuristic claim: blob "big" is exactly
4 MiB long, blob "small" is 8 bytes long. -/
def readHeuristicState : State :=
  { blobs := [("big", ⟨GRAIN_SIZE, fun _ => 7⟩), ("small", ⟨8, fun _ => 9⟩)],
    staged := [], writeMap := [] }

/-- The state after the zero-length write of the marker blob of `d`. -/
def marker_written (wd : String) (s : State) (d : String) : State :=
  { s with blobs := upsert s.blobs (get_path wd (slashify d ++ MARKER)) ⟨0, fun _ => 0⟩ }

/-- A store holding one blob "a/f" (so "a" is a directory by prefix). -/
def deleteFailState : State := ⟨[("a/f", ⟨1, fun _ => 3⟩)], [], []⟩

/-- The client on which deleting blob "a/f" fails: the blob survives the
`delete_blob` call. -/
def stickyClient : Client :=
  ⟨fun _ => false, fun _ => false, fun _ => false, fun p => p == "a/f"⟩

end TileDBAzure

namespace TileDBImage


/-- Palette R values of check_results (index 9 is the unused grey). -/
def Rpal : Nat → Int
  | 0 => 0 | 1 => 201 | 2 => 234
  | 3 => 233 | 4 => 255 | 5 => 255
  | 6 => 101 | 7 => 12 | 8 => 0
  | _ => 130

/-- Palette G values of check_results. -/
def Gpal : Nat → Int
  | 0 => 0 | 1 => 23 | 2 => 85
  | 3 => 82 | 4 => 255 | 5 => 234
  | 6 => 49 | 7 => 2 | 8 => 85
  | _ => 130

/-- Palette B values of check_results. -/
def Bpal : Nat → Int
  | 0 => 0 | 1 => 30 | 2 => 6
  | 3 => 149 | 4 => 255 | 5 => 0
  | 6 => 142 | 7 => 196 | 8 => 46
  | _ => 130

/-- The counters of check_results: read positions p (R plane), q (G plane),
r (B plane) and the running error count. -/
structure CheckSt where
  p : Nat
  q : Nat
  r : Nat
  errs : Nat
deriving DecidableEq

/-- Innermost `k` loop of check_results: compare the R, G, B values at
p, q, r against palette entry `j`, stepping the positions. -/
def loopK (buf : Nat → Int) (j : Nat) : Nat → CheckSt → CheckSt
  | 0, st => st
  | n + 1, st =>
    let e1 := if buf st.p ≠ Rpal j then st.errs + 1 else st.errs
    let e2 := if buf st.q ≠ Gpal j then e1 + 1 else e1
    let e3 := if buf st.r ≠ Bpal j then e2 + 1 else e2
    loopK buf j n ⟨st.p + 1, st.q + 1, st.r + 1, e3⟩

/-- The `j` loop of check_results: three panels across, `height/3 = 100`
cells each. -/
def loopJ (buf : Nat → Int) : Nat → Nat → CheckSt → CheckSt
  | _, 0, st => st
  | j, n + 1, st => loopJ buf (j + 1) n (loopK buf j 100 st)

/-- The `i` loop of check_results: `width/3 = 100` rows, each running the
`j` loop from panel `c`. -/
def loopI (buf : Nat → Int) (c : Nat) : Nat → CheckSt → CheckSt
  | 0, st => st
  | n + 1, st => loopI buf c n (loopJ buf c 3 st)

/-- The `c` loop of check_results: panel rows `c = 0, 3, 6`. -/
def loopC (buf : Nat → Int) : Nat → Nat → CheckSt → CheckSt
  | _, 0, st => st
  | c, n + 1, st => loopC buf (c + 3) n (loopI buf c 100 st)

/-- `check_results` of tiledb_image_read_panels.cc: run the four nested loops
starting from `p = 0`, `q = width*height = 90000`, `r = 2*width*height =
180000` and zero errors, and return the final error count (the check prints
SUCCESSFUL exactly when it is zero). -/
def check_results (buf : Nat → Int) : Nat :=
  (loopC buf 0 3 ⟨0, 90000, 180000, 0⟩).errs

/-- Errors one cell contributes: one per mismatching R, G, B comparison. -/
def delta (buf : Nat → Int) (j p q r : Nat) : Nat :=
  (if buf p ≠ Rpal j then 1 else 0) + (if buf q ≠ Gpal j then 1 else 0)
    + (if buf r ≠ Bpal j then 1 else 0)

/-- Error count of a counted loop: `n` iterations of `inner`, the palette
index advancing by `step` and the three positions by `stride` each time. -/
def errLoop (inner : Nat → Nat → Nat → Nat → Nat) (step stride : Nat) :
    Nat → Nat → Nat → Nat → Nat → Nat
  | _, _, _, _, 0 => 0
  | c, p, q, r, n + 1 =>
    inner c p q r
      + errLoop inner step stride (c + step) (p + stride) (q + stride) (r + stride) n

/-- Error count of the `k` loop. -/
def errK (buf : Nat → Int) : Nat → Nat → Nat → Nat → Nat → Nat :=
  errLoop (delta buf) 0 1

/-- Error count of the `j` loop. -/
def errJ (buf : Nat → Int) : Nat → Nat → Nat → Nat → Nat → Nat :=
  errLoop (fun j p q r => errK buf j p q r 100) 1 100

/-- Error count of the `i` loop. -/
def errI (buf : Nat → Int) : Nat → Nat → Nat → Nat → Nat → Nat :=
  errLoop (fun c p q r => errJ buf c p q r 3) 0 300

/-- Error count of the `c` loop. -/
def errC (buf : Nat → Int) : Nat → Nat → Nat → Nat → Nat → Nat :=
  errLoop (fun c p q r => errI buf c p q r 100) 3 30000

/-- The property the claim states of the full-domain read: the three planes
(R from 0, G from 90000, B from 180000) hold, at row-major pixel (y, x), the
palette triple of the 100x100 panel containing the pixel, panels numbered in
row-major order. -/
def panel_property (buf : Nat → Int) : Prop :=
  ∀ y x : Nat, y < 300 → x < 300 →
    buf (y * 300 + x) = Rpal (3 * (y / 100) + x / 100) ∧
    buf (90000 + (y * 300 + x)) = Gpal (3 * (y / 100) + x / 100) ∧
    buf (180000 + (y * 300 + x)) = Bpal (3 * (y / 100) + x / 100)

/-- Modelled from the spec: the core read pipeline is not among the sources;
spec scenario "Image panel read" states that reading the full domain returns,
per 100x100 panel, the constant RGB triple of the palette in row-major panel
order, laid out as the three attribute planes main() binds (R at offset 0, G
at 90000, B at 180000). -/
def panelimage_read : Nat → Int := fun n =>
  if n < 90000 then Rpal (3 * (n / 300 / 100) + n % 300 / 100)
  else if n < 180000 then
    Gpal (3 * ((n - 90000) / 300 / 100) + (n - 90000) % 300 / 100)
  else Bpal (3 * ((n - 180000) / 300 / 100) + (n - 180000) % 300 / 100)


end TileDBImage


namespace TileDBAzure

/-- Claim C8: the Azure Blob backend reports no advisory-locking capability. -/
theorem azure_locking_support_false : locking_support = false := rfl

/-- Claim C1: `read_from_file` either fills the buffer with exactly `length`
bytes of the requested range or fails: it errors when the blob does not exist
or when `offset + length` exceeds the blob size, succeeds without issuing any
download when `length = 0`, and otherwise succeeds with exactly the bytes
`[offset, offset+length)` of the blob. -/
theorem read_from_file_exact (wd : String) (s : State) (filename : String)
    (offset length : Nat) :
    let r := read_from_file wd s filename offset length
    match s.blobs.lookup (get_path wd filename) with
    | none => r.rc = TILEDB_FS_ERR ∧ r.data = []
    | some b =>
      if b.size < offset + length then
        r.rc = TILEDB_FS_ERR ∧ r.data = []
      else
        r.rc = TILEDB_FS_OK ∧
        r.data = (List.range length).map (fun k => b.data (offset + k)) ∧
        r.data.length = length ∧
        (r.method = ReadMethod.noRead ↔ length = 0) := by
  cases h : s.blobs.lookup (get_path wd filename) with
  | none => simp [read_from_file, is_file, h, TILEDB_FS_ERR]
  | some b =>
    simp only [read_from_file, is_file, h, Option.isSome_some, Bool.not_true,
      Bool.false_eq_true, if_false]
    rcases Nat.lt_or_ge b.size (offset + length) with hlt | hge
    · have hlt' : b.size < length + offset := by omega
      simp [hlt', hlt]
    · have h1 : ¬ b.size < length + offset := by omega
      have h2 : ¬ b.size < offset + length := by omega
      rcases Nat.eq_zero_or_pos length with h0 | hpos
      · subst h0
        have h2' : ¬ b.size < offset := by omega
        simp [h2']
      · have h3 : ¬ length = 0 := by omega
        by_cases h4 : b.size < GRAIN_SIZE <;>
          simp [h1, h2, h3, h4]

/-- Claim C4 (amended): the choice between the single range GET and the
parallel download is made on the blob's file size, not on the requested
length: a read that actually downloads (success and `0 < length`) uses the
single stream GET exactly when the file size is below 4 MiB, and the parallel
buffer download exactly when the file size is at least 4 MiB. -/
theorem read_method_by_file_size (wd : String) (s : State) (filename : String)
    (offset length : Nat) (b : Blob)
    (hb : s.blobs.lookup (get_path wd filename) = some b)
    (hlen : 0 < length)
    (hok : (read_from_file wd s filename offset length).rc = TILEDB_FS_OK) :
    ((read_from_file wd s filename offset length).method = ReadMethod.singleGet
        ↔ b.size < GRAIN_SIZE) ∧
    ((read_from_file wd s filename offset length).method = ReadMethod.parallelGet
        ↔ GRAIN_SIZE ≤ b.size) := by
  simp only [read_from_file, is_file, hb, Option.isSome_some, Bool.not_true,
    Bool.false_eq_true, if_false] at hok ⊢
  by_cases h1 : b.size < length + offset
  · simp [h1, TILEDB_FS_ERR, TILEDB_FS_OK] at hok
  · have h3 : ¬ length = 0 := by omega
    by_cases h4 : b.size < GRAIN_SIZE
    · constructor
      · simp [h1, h3, h4]
      · simp only [h1, if_false, h3, if_false, h4, if_true]
        constructor
        · intro h; exact absurd h (by simp)
        · intro h; exact absurd h (by omega)
    · constructor
      · simp only [h1, if_false, h3, if_false, h4, if_false]
        constructor
        · intro h; exact absurd h (by simp)
        · intro h; exact h.elim
      · simp [h1, h3, h4]; omega

/-- Claim C4 counterexample: reading 1 byte (a length far below 4 MiB) of a
4 MiB blob succeeds but is served by the parallel buffer download, not by a
single range GET. -/
theorem read_small_length_uses_parallel_cex :
    (read_from_file "" readHeuristicState "big" 0 1).rc = TILEDB_FS_OK ∧
    1 < GRAIN_SIZE ∧
    (read_from_file "" readHeuristicState "big" 0 1).method = ReadMethod.parallelGet ∧
    (read_from_file "" readHeuristicState "big" 0 1).method ≠ ReadMethod.singleGet := by
  decide

/-- Witness for the amended C4 theorem at a concrete 8-byte blob. -/
theorem read_method_by_file_size_witness :
    ((read_from_file "" readHeuristicState "small" 0 1).method = ReadMethod.singleGet
        ↔ (8 : Nat) < GRAIN_SIZE) ∧
    ((read_from_file "" readHeuristicState "small" 0 1).method = ReadMethod.parallelGet
        ↔ GRAIN_SIZE ≤ (8 : Nat)) :=
  read_method_by_file_size "" readHeuristicState "small" 0 1 ⟨8, fun _ => 9⟩ rfl
    (by decide) (by decide)

/-- Helper: the ceiling division `num_blocks_calc` covers the buffer. -/
theorem le_ceil_mul (len bs : Nat) (hbs : 0 < bs) : len ≤ (len + bs - 1) / bs * bs := by
  have h := Nat.div_add_mod (len + bs - 1) bs
  have hmod : (len + bs - 1) % bs < bs := Nat.mod_lt _ hbs
  have hmul : bs * ((len + bs - 1) / bs) = (len + bs - 1) / bs * bs := Nat.mul_comm _ _
  omega

/-- Helper: the block size is at least the 8 MiB default. -/
theorem default_le_block_size (n : Nat) :
    constants.default_block_size ≤ block_size_calc n :=
  le_max_right _ _

/-- Helper: the block size is at most the 100 MiB maximum. -/
theorem block_size_le_max (n : Nat) :
    block_size_calc n ≤ constants.max_block_size :=
  max_le (min_le_right _ _) (by decide)

/-- Helper: flattening the staged chunks reproduces a prefix of the buffer,
cut off at `bs * n`. -/
theorem upload_chunks_flatten_min (bs : Nat) (buffer : Nat → Nat) (len : Nat) :
    ∀ n : Nat, (upload_chunks bs n buffer len).flatten
      = (List.range (min len (bs * n))).map buffer := by
  intro n
  induction n with
  | zero => simp [upload_chunks]
  | succ n ih =>
    have hsplit : upload_chunks bs (n + 1) buffer len
        = upload_chunks bs n buffer len ++ [upload_chunk bs buffer len n] := by
      simp [upload_chunks, List.range_succ]
    rw [hsplit, List.flatten_append, ih]
    simp only [List.flatten, List.append_nil, upload_chunk]
    by_cases hle : len ≤ bs * n
    · have h1 : min len (bs * n) = len := by omega
      have h2 : len - bs * n = 0 := by omega
      have h3 : min len (bs * (n + 1)) = len := by
        have hmono : bs * n ≤ bs * (n + 1) :=
          Nat.mul_le_mul_left bs (by omega)
        omega
      simp [h1, h2, h3]
    · have h1 : min len (bs * n) = bs * n := by omega
      have h2 : bs * n + min bs (len - bs * n) = min len (bs * (n + 1)) := by
        have : bs * (n + 1) = bs * n + bs := by ring
        omega
      rw [h1, ← h2, List.range_add, List.map_append, List.map_map]
      congr 1

/-- Claim C2: the buffered write is chunked into blocks of at most 100 MiB:
the block size is `buffer_size / max_num_blocks` rounded up to the 4 MiB
grain and clamped between the 8 MiB default and the 100 MiB maximum, the
block count is the covering ceiling `buffer_size / block_size` (flattening
the staged chunks reproduces the buffer byte for byte), the effective upload
parallelism is bounded by `hardware_concurrency / 2`, and block ids are a
deterministic function of the blob path and block index. -/
theorem write_chunking_bounds (buffer_size : Nat) (buffer : Nat → Nat)
    (path : String) (start hardware_concurrency : Nat) :
    block_size_calc buffer_size ≤ constants.max_block_size ∧
    constants.default_block_size ≤ block_size_calc buffer_size ∧
    buffer_size ≤ num_blocks_calc buffer_size * block_size_calc buffer_size ∧
    (upload_chunks (block_size_calc buffer_size) (num_blocks_calc buffer_size)
        buffer buffer_size).all
      (fun blk => blk.length ≤ constants.max_block_size) = true ∧
    (upload_chunks (block_size_calc buffer_size) (num_blocks_calc buffer_size)
        buffer buffer_size).flatten = (List.range buffer_size).map buffer ∧
    upload_parallelism hardware_concurrency (hardware_concurrency / 2)
      ≤ hardware_concurrency / 2 ∧
    generate_block_ids path start (num_blocks_calc buffer_size)
      = (List.range (num_blocks_calc buffer_size)).map
          (fun i => block_id path (start + i)) := by
  have hbs : 0 < block_size_calc buffer_size :=
    lt_of_lt_of_le (by decide) (default_le_block_size buffer_size)
  have hcover : buffer_size
      ≤ num_blocks_calc buffer_size * block_size_calc buffer_size :=
    le_ceil_mul buffer_size (block_size_calc buffer_size) hbs
  refine ⟨block_size_le_max buffer_size, default_le_block_size buffer_size,
    hcover, ?_, ?_, min_le_left _ _, rfl⟩
  · rw [List.all_eq_true]
    intro blk hblk
    rcases List.mem_map.mp hblk with ⟨i, _, rfl⟩
    simp only [upload_chunk, List.length_map, List.length_range, decide_eq_true_eq]
    exact le_trans (min_le_left _ _) (block_size_le_max buffer_size)
  · rw [upload_chunks_flatten_min]
    have hmin : min buffer_size (block_size_calc buffer_size * num_blocks_calc buffer_size)
        = buffer_size := by
      have := hcover
      have hcomm : num_blocks_calc buffer_size * block_size_calc buffer_size
          = block_size_calc buffer_size * num_blocks_calc buffer_size := Nat.mul_comm _ _
      omega
    rw [hmin]

/-- Claim C6: a write whose buffer size exceeds the backend block limit
`max_num_blocks * max_block_size` (given the parent directory exists, so the
earlier parent check passes) fails with the capacity error, attempts no block
upload, and leaves the remote store unchanged. -/
theorem write_to_file_capacity (pd : String → String) (wd : String) (c : Client)
    (s : State) (filename : String) (buffer : Nat → Nat) (buffer_size : Nat)
    (hparent : is_dir wd s (pd filename) = true)
    (hbig : buffer_size > constants.max_num_blocks * constants.max_block_size) :
    (write_to_file pd wd c s filename buffer buffer_size).rc = TILEDB_FS_ERR ∧
    (write_to_file pd wd c s filename buffer buffer_size).st = s ∧
    (write_to_file pd wd c s filename buffer buffer_size).err =
      some "Buffer size too large for azure upload" := by
  have h0 : ¬ (buffer_size = 0) := by
    intro h
    rw [h] at hbig
    exact absurd hbig (by decide)
  simp [write_to_file, h0, hparent, hbig]

/-- Witness for the C6 theorem: an empty store, a root working directory and
a buffer one byte over the 50000 x 100 MiB limit. -/
theorem write_to_file_capacity_witness :
    (write_to_file (fun _ => "") "" okClient ⟨[], [], []⟩ "f" (fun _ => 0)
        5242880000001).rc = TILEDB_FS_ERR ∧
    (write_to_file (fun _ => "") "" okClient ⟨[], [], []⟩ "f" (fun _ => 0)
        5242880000001).st = ⟨[], [], []⟩ ∧
    (write_to_file (fun _ => "") "" okClient ⟨[], [], []⟩ "f" (fun _ => 0)
        5242880000001).err = some "Buffer size too large for azure upload" :=
  write_to_file_capacity (fun _ => "") "" okClient ⟨[], [], []⟩ "f" (fun _ => 0)
    5242880000001 (by decide) (by decide)

/-- Helper: looking up an erased key yields nothing. -/
theorem lookup_eraseKey {α : Type} (m : List (String × α)) (k : String) :
    (eraseKey m k).lookup k = none := by
  induction m with
  | nil => rfl
  | cons p t ih =>
    rcases p with ⟨a, v⟩
    by_cases h : a = k
    · simpa [eraseKey, h] using ih
    · have hne : (a != k) = true := by simp [h]
      have hbe : (k == a) = false := by simp [Ne.symm h]
      simp only [eraseKey, List.filter, hne, List.lookup, hbe] at ih ⊢
      exact ih

/-- Helper: looking up a freshly upserted key yields the new value. -/
theorem lookup_upsert {α : Type} (m : List (String × α)) (k : String) (v : α) :
    (upsert m k v).lookup k = some v := by
  simp [upsert, List.lookup]

/-- Helper: a buffered write (nonzero buffer) never changes the visible
blobs; only `commit_file` publishes. -/
theorem write_to_file_keeps_blobs (pd : String → String) (wd : String)
    (c : Client) (s : State) (filename : String) (buffer : Nat → Nat)
    (buffer_size : Nat) (h : 0 < buffer_size) :
    (write_to_file pd wd c s filename buffer buffer_size).st.blobs = s.blobs := by
  have h0 : ¬ (buffer_size = 0) := by omega
  by_cases hp : is_dir wd s (pd filename)
  · by_cases hb : buffer_size > constants.max_num_blocks * constants.max_block_size
    · simp [write_to_file, h0, hp, hb]
    · by_cases hu : c.uploadFails (get_path wd filename)
      · simp [write_to_file, h0, hp, hb, hu]
      · simp [write_to_file, h0, hp, hb, hu]
  · simp [write_to_file, h0, hp]

/-- Claim C3: `commit_file` makes pending appends durable and visible: it
issues `put_block_list` exactly when the resolved path has a pending entry in
`write_map_`; it removes the pending entry afterwards whether the put
succeeded or failed; with no pending entry it returns success without issuing
any commit; on a successful put the staged blocks, concatenated in block-list
order, become the visible blob; and until commit a buffered `write_to_file`
(nonzero size) leaves the visible blobs unchanged. -/
theorem commit_file_publishes (wd : String) (c : Client) (s : State)
    (path : String) :
    ((commit_file wd c s path).did_put
        = (s.writeMap.lookup (get_path wd path)).isSome) ∧
    ((commit_file wd c s path).st.writeMap.lookup (get_path wd path) = none) ∧
    (s.writeMap.lookup (get_path wd path) = none →
      (commit_file wd c s path).rc = TILEDB_FS_OK ∧
      (commit_file wd c s path).st = s) ∧
    (∀ ids, s.writeMap.lookup (get_path wd path) = some ids →
      c.putBlockListFails (get_path wd path) = false →
      (commit_file wd c s path).rc = TILEDB_FS_OK ∧
      (commit_file wd c s path).st.blobs.lookup (get_path wd path)
        = some ⟨(staged_bytes s (get_path wd path) ids).length,
                fun k => (staged_bytes s (get_path wd path) ids).getD k 0⟩) ∧
    (∀ pd buffer buffer_size, 0 < buffer_size →
      (write_to_file pd wd c s path buffer buffer_size).st.blobs = s.blobs) := by
  refine ⟨?_, ?_, ?_, ?_,
    fun pd buffer buffer_size h =>
      write_to_file_keeps_blobs pd wd c s path buffer buffer_size h⟩
  · cases hw : s.writeMap.lookup (get_path wd path) with
    | none => simp [commit_file, hw]
    | some ids =>
      by_cases hput : c.putBlockListFails (get_path wd path)
      · simp [commit_file, hw, put_block_list, hput]
      · simp [commit_file, hw, put_block_list, hput]
  · cases hw : s.writeMap.lookup (get_path wd path) with
    | none => simp [commit_file, hw]
    | some ids =>
      by_cases hput : c.putBlockListFails (get_path wd path)
      · simpa [commit_file, hw, put_block_list, hput] using
          lookup_eraseKey s.writeMap (get_path wd path)
      · simpa [commit_file, hw, put_block_list, hput] using
          lookup_eraseKey s.writeMap (get_path wd path)
  · intro hw
    simp [commit_file, hw]
  · intro ids hw hput
    simp [commit_file, hw, put_block_list, hput, lookup_upsert]

/-- Helper: the maxresults-1 listing is nonempty exactly when some blob lies
under the prefix. -/
theorem list_nonempty_iff (blobs : List (String × Blob)) (pre : String) :
    (list_blobs_segmented blobs pre 1).isEmpty = false
      ↔ ∃ p ∈ blobs, starts_with p.1 pre = true := by
  simp only [Bool.eq_false_iff, ne_eq, List.isEmpty_iff, list_blobs_segmented,
    List.take_eq_nil_iff, List.dedup_eq_nil, List.filterMap_eq_nil_iff, not_or]
  simp only [ite_eq_right_iff, reduceCtorEq, imp_false, not_forall]
  constructor
  · rintro ⟨-, p, hp, hsw⟩
    exact ⟨p, hp, by simpa using hsw⟩
  · rintro ⟨p, hp, hsw⟩
    exact ⟨not_false, p, hp, by simp [hsw]⟩

/-- Claim C5 (exhibiting the swallowed failure): deleting directory "a" while
the backend refuses to delete blob "a/f" returns `TILEDB_FS_OK` even though
the blob still exists afterwards; the failure is only logged. -/
theorem delete_dir_swallows_failure :
    (delete_dir "" stickyClient 2 deleteFailState "a").1 = TILEDB_FS_OK ∧
    ((delete_dir "" stickyClient 2 deleteFailState "a").2.blobs.lookup
        "a/f").isSome = true := by
  decide

/-- Claim C7 (amended): `is_dir d` holds exactly when `d` is empty or resolves
to the container root, or the marker blob of `d` exists, or some blob lies
under the prefix `d/`; and a successful `create_dir d` for a `d` that does not
resolve to the container root leaves the marker blob in place and `is_dir d`
true.  (At the container root `create_dir` succeeds without writing any
marker.) -/
theorem is_dir_characterization_and_create_dir (pd : String → String)
    (wd : String) (c : Client) (s : State) (d : String) :
    (is_dir wd s d = true ↔
      (str_is_empty d = true ∨ str_is_empty (get_path wd d) = true ∨
       (s.blobs.lookup (get_path wd (slashify d ++ MARKER))).isSome = true ∨
       ∃ p ∈ s.blobs, starts_with p.1 (slashify (get_path wd d)) = true)) ∧
    (str_is_empty (get_path wd d) = false →
      (create_dir pd wd c s d).1 = TILEDB_FS_OK →
      ((create_dir pd wd c s d).2.blobs.lookup
          (get_path wd (slashify d ++ MARKER))).isSome = true ∧
      is_dir wd (create_dir pd wd c s d).2 d = true) := by
  constructor
  · simp only [is_dir, Bool.or_eq_true, is_file, Bool.not_eq_true',
      list_nonempty_iff]
    tauto
  · intro hroot hok
    by_cases hdir : is_dir wd s d
    · exfalso
      simp [create_dir, hroot, hdir, TILEDB_FS_ERR, TILEDB_FS_OK] at hok
    · by_cases hpar : (d != wd && !(is_dir wd s (pd d))) = true
      · exfalso
        simp [create_dir, hroot, hdir, hpar, TILEDB_FS_ERR, TILEDB_FS_OK] at hok
      · have hmark : (s.blobs.lookup (get_path wd (slashify d ++ MARKER))).isSome
            = false := by
          simp only [is_dir, Bool.or_eq_true, is_file, not_or,
            Bool.not_eq_true] at hdir
          exact hdir.1.2
        by_cases hca : c.createAppendFails (get_path wd (slashify d ++ MARKER))
        · exfalso
          simp [create_dir, hroot, hdir, hpar, write_to_file, hmark, hca,
            TILEDB_FS_ERR, TILEDB_FS_OK] at hok
        · have hw : write_to_file pd wd c s (slashify d ++ MARKER) (fun _ => 0) 0
              = ⟨TILEDB_FS_OK, marker_written wd s d, none⟩ := by
            simp [write_to_file, hmark, hca, marker_written]
          by_cases hid : is_dir wd (marker_written wd s d) d
          · have hres : create_dir pd wd c s d = (TILEDB_FS_OK, marker_written wd s d) := by
              simp [create_dir, hroot, hdir, hpar, hw, hid]
            rw [hres]
            exact ⟨by simp [marker_written, lookup_upsert], hid⟩
          · exfalso
            simp [create_dir, hroot, hdir, hpar, hw, hid, TILEDB_FS_ERR,
              TILEDB_FS_OK] at hok

/-- Claim C7 counterexample: `create_dir "/"`, the container root, succeeds
without writing any blob: the marker blob of "/" does not exist afterwards. -/
theorem create_dir_root_no_marker_cex :
    (create_dir (fun _ => "") "" okClient ⟨[], [], []⟩ "/").1 = TILEDB_FS_OK ∧
    ((create_dir (fun _ => "") "" okClient ⟨[], [], []⟩ "/").2.blobs.lookup
        (get_path "" (slashify "/" ++ MARKER))).isSome = false ∧
    (create_dir (fun _ => "") "" okClient ⟨[], [], []⟩ "/").2.blobs.length = 0 := by
  decide

/-- Claim C10 (amended): away from the container root, `create_dir` is not
idempotent: on a path that is already a directory it returns an error and
writes nothing; on a fresh path other than the working directory whose parent
is not a directory it also returns an error and writes nothing; and a
successful `create_dir d` implies `d` resolved to the container root, or `d`
is the working directory, or the parent of `d` was a directory beforehand. -/
theorem create_dir_requires_fresh_and_parent (pd : String → String)
    (wd : String) (c : Client) (s : State) (d : String) :
    (str_is_empty (get_path wd d) = false → is_dir wd s d = true →
      (create_dir pd wd c s d).1 = TILEDB_FS_ERR ∧
      (create_dir pd wd c s d).2 = s) ∧
    (str_is_empty (get_path wd d) = false → is_dir wd s d = false →
      d ≠ wd → is_dir wd s (pd d) = false →
      (create_dir pd wd c s d).1 = TILEDB_FS_ERR ∧
      (create_dir pd wd c s d).2 = s) ∧
    ((create_dir pd wd c s d).1 = TILEDB_FS_OK →
      str_is_empty (get_path wd d) = true ∨ d = wd ∨ is_dir wd s (pd d) = true) := by
  refine ⟨?_, ?_, ?_⟩
  · intro hroot hdir
    simp [create_dir, hroot, hdir]
  · intro hroot hdir hne hpar
    have hcond : (d != wd && !(is_dir wd s (pd d))) = true := by
      simp [hne, hpar]
    simp [create_dir, hroot, hdir, hcond]
  · intro hok
    by_cases hroot : str_is_empty (get_path wd d)
    · exact Or.inl hroot
    · by_cases hwdeq : d = wd
      · exact Or.inr (Or.inl hwdeq)
      · by_cases hpar : is_dir wd s (pd d)
        · exact Or.inr (Or.inr hpar)
        · exfalso
          by_cases hdir : is_dir wd s d
          · simp [create_dir, hroot, hdir, TILEDB_FS_ERR, TILEDB_FS_OK] at hok
          · have hcond : (d != wd && !(is_dir wd s (pd d))) = true := by
              simp [hwdeq, hpar]
            simp [create_dir, hroot, hdir, hcond, TILEDB_FS_ERR,
              TILEDB_FS_OK] at hok

/-- Claim C10 counterexample: the container root "/" is already a directory
(`is_dir` holds on the empty store), yet `create_dir "/"` returns success,
not an error. -/
theorem create_dir_existing_root_ok_cex :
    is_dir "" (⟨[], [], []⟩ : State) "/" = true ∧
    (create_dir (fun _ => "") "" okClient ⟨[], [], []⟩ "/").1 = TILEDB_FS_OK := by
  decide

end TileDBAzure

namespace TileDBImage

theorem errLoop_eq_zero (inner : Nat → Nat → Nat → Nat → Nat) (step stride : Nat) :
    ∀ (n c p q r : Nat), errLoop inner step stride c p q r n = 0
      ↔ ∀ m, m < n →
          inner (c + step * m) (p + stride * m) (q + stride * m) (r + stride * m) = 0 := by
  intro n
  induction n with
  | zero => intro c p q r; simp [errLoop]
  | succ n ih =>
    intro c p q r
    simp only [errLoop]
    constructor
    · intro h m hm
      have h1 : inner c p q r = 0 := by omega
      have h2 : errLoop inner step stride (c + step) (p + stride) (q + stride)
          (r + stride) n = 0 := by omega
      cases m with
      | zero => simpa using h1
      | succ m =>
        have hmem := (ih (c + step) (p + stride) (q + stride) (r + stride)).mp h2 m
          (by omega)
        have e1 : c + step * (m + 1) = c + step + step * m := by ring
        have e2 : p + stride * (m + 1) = p + stride + stride * m := by ring
        have e3 : q + stride * (m + 1) = q + stride + stride * m := by ring
        have e4 : r + stride * (m + 1) = r + stride + stride * m := by ring
        rw [e1, e2, e3, e4]
        exact hmem
    · intro h
      have h0 : inner c p q r = 0 := by simpa using h 0 (by omega)
      have hrest : errLoop inner step stride (c + step) (p + stride) (q + stride)
          (r + stride) n = 0 := by
        rw [ih]
        intro m hm
        have hmem := h (m + 1) (by omega)
        have e1 : c + step * (m + 1) = c + step + step * m := by ring
        have e2 : p + stride * (m + 1) = p + stride + stride * m := by ring
        have e3 : q + stride * (m + 1) = q + stride + stride * m := by ring
        have e4 : r + stride * (m + 1) = r + stride + stride * m := by ring
        rw [e1, e2, e3, e4] at hmem
        exact hmem
      omega

theorem delta_eq_zero (buf : Nat → Int) (j p q r : Nat) :
    delta buf j p q r = 0
      ↔ (buf p = Rpal j ∧ buf q = Gpal j ∧ buf r = Bpal j) := by
  unfold delta
  by_cases h1 : buf p = Rpal j <;> by_cases h2 : buf q = Gpal j <;>
    by_cases h3 : buf r = Bpal j <;> simp [h1, h2, h3]

theorem loopK_spec (buf : Nat → Int) (j : Nat) :
    ∀ (n : Nat) (st : CheckSt), loopK buf j n st
      = ⟨st.p + n, st.q + n, st.r + n, st.errs + errK buf j st.p st.q st.r n⟩ := by
  intro n
  induction n with
  | zero => intro st; simp [loopK, errK, errLoop]
  | succ n ih =>
    intro st
    rw [loopK, ih]
    simp only [errK, errLoop, delta, CheckSt.mk.injEq, Nat.add_zero]
    refine ⟨by omega, by omega, by omega, ?_⟩
    split_ifs <;> omega

theorem loopJ_spec (buf : Nat → Int) :
    ∀ (n j : Nat) (st : CheckSt), loopJ buf j n st
      = ⟨st.p + 100 * n, st.q + 100 * n, st.r + 100 * n,
         st.errs + errJ buf j st.p st.q st.r n⟩ := by
  intro n
  induction n with
  | zero => intro j st; simp [loopJ, errJ, errLoop]
  | succ n ih =>
    intro j st
    rw [loopJ, loopK_spec, ih]
    simp only [errJ, errLoop, CheckSt.mk.injEq]
    refine ⟨by omega, by omega, by omega, by omega⟩

theorem loopI_spec (buf : Nat → Int) (c : Nat) :
    ∀ (n : Nat) (st : CheckSt), loopI buf c n st
      = ⟨st.p + 300 * n, st.q + 300 * n, st.r + 300 * n,
         st.errs + errI buf c st.p st.q st.r n⟩ := by
  intro n
  induction n with
  | zero => intro st; simp [loopI, errI, errLoop]
  | succ n ih =>
    intro st
    rw [loopI, loopJ_spec, ih]
    simp only [errI, errLoop, CheckSt.mk.injEq, Nat.add_zero, Nat.reduceMul]
    refine ⟨by omega, by omega, by omega, by omega⟩

theorem loopC_spec (buf : Nat → Int) :
    ∀ (n c : Nat) (st : CheckSt), loopC buf c n st
      = ⟨st.p + 30000 * n, st.q + 30000 * n, st.r + 30000 * n,
         st.errs + errC buf c st.p st.q st.r n⟩ := by
  intro n
  induction n with
  | zero => intro c st; simp [loopC, errC, errLoop]
  | succ n ih =>
    intro c st
    rw [loopC, loopI_spec, ih]
    simp only [errC, errLoop, CheckSt.mk.injEq, Nat.add_zero, Nat.reduceMul]
    refine ⟨by omega, by omega, by omega, by omega⟩

theorem check_results_eq_zero_iff (buf : Nat → Int) :
    check_results buf = 0 ↔ panel_property buf := by
  unfold check_results
  rw [loopC_spec]
  simp only [Nat.zero_add, zero_add]
  rw [errC, errLoop_eq_zero]
  constructor
  · intro h y x hy hx
    have hh := h (y / 100) (by omega)
    rw [errI, errLoop_eq_zero] at hh
    have hh2 := hh (y % 100) (by omega)
    rw [errJ, errLoop_eq_zero] at hh2
    have hh3 := hh2 (x / 100) (by omega)
    rw [errK, errLoop_eq_zero] at hh3
    have hh4 := hh3 (x % 100) (by omega)
    rw [delta_eq_zero] at hh4
    obtain ⟨h1, h2, h3⟩ := hh4
    have ep : 0 + 30000 * (y / 100) + 300 * (y % 100) + 100 * (x / 100) + 1 * (x % 100)
        = y * 300 + x := by omega
    have eq' : 90000 + 30000 * (y / 100) + 300 * (y % 100) + 100 * (x / 100) + 1 * (x % 100)
        = 90000 + (y * 300 + x) := by omega
    have er : 180000 + 30000 * (y / 100) + 300 * (y % 100) + 100 * (x / 100) + 1 * (x % 100)
        = 180000 + (y * 300 + x) := by omega
    have ej : 0 + 3 * (y / 100) + 0 * (y % 100) + 1 * (x / 100) + 0 * (x % 100)
        = 3 * (y / 100) + x / 100 := by omega
    rw [ep, ej] at h1
    rw [eq', ej] at h2
    rw [er, ej] at h3
    exact ⟨h1, h2, h3⟩
  · intro h m hm
    rw [errI, errLoop_eq_zero]
    intro i hi
    rw [errJ, errLoop_eq_zero]
    intro mm hmm
    rw [errK, errLoop_eq_zero]
    intro t ht
    rw [delta_eq_zero]
    have hy : 100 * m + i < 300 := by omega
    have hx : 100 * mm + t < 300 := by omega
    obtain ⟨h1, h2, h3⟩ := h (100 * m + i) (100 * mm + t) hy hx
    have ep : (100 * m + i) * 300 + (100 * mm + t)
        = 0 + 30000 * m + 300 * i + 100 * mm + 1 * t := by ring
    have ej : 3 * ((100 * m + i) / 100) + (100 * mm + t) / 100
        = 0 + 3 * m + 0 * i + 1 * mm + 0 * t := by omega
    rw [ep, ej] at h1
    rw [ep, ej] at h2
    rw [ep, ej] at h3
    refine ⟨h1, ?_, ?_⟩
    · have e2 : 90000 + (0 + 30000 * m + 300 * i + 100 * mm + 1 * t)
          = 90000 + 30000 * m + 300 * i + 100 * mm + 1 * t := by omega
      rw [e2] at h2
      exact h2
    · have e3 : 180000 + (0 + 30000 * m + 300 * i + 100 * mm + 1 * t)
          = 180000 + 30000 * m + 300 * i + 100 * mm + 1 * t := by omega
      rw [e3] at h3
      exact h3

theorem panelimage_read_property : panel_property panelimage_read := by
  intro y x hy hx
  refine ⟨?_, ?_, ?_⟩
  · rw [panelimage_read]
    rw [if_pos (by omega)]
    have e : 3 * ((y * 300 + x) / 300 / 100) + (y * 300 + x) % 300 / 100
        = 3 * (y / 100) + x / 100 := by omega
    rw [e]
  · rw [panelimage_read]
    rw [if_neg (by omega), if_pos (by omega)]
    have e : 3 * ((90000 + (y * 300 + x) - 90000) / 300 / 100)
          + (90000 + (y * 300 + x) - 90000) % 300 / 100
        = 3 * (y / 100) + x / 100 := by omega
    rw [e]
  · rw [panelimage_read]
    rw [if_neg (by omega), if_neg (by omega)]
    have e : 3 * ((180000 + (y * 300 + x) - 180000) / 300 / 100)
          + (180000 + (y * 300 + x) - 180000) % 300 / 100
        = 3 * (y / 100) + x / 100 := by omega
    rw [e]

/-- Claim C9. -/
theorem image_panel_read_check (buf : Nat → Int) :
    (check_results buf = 0 ↔ panel_property buf) ∧
    check_results panelimage_read = 0 := by
  refine ⟨check_results_eq_zero_iff buf, ?_⟩
  rw [check_results_eq_zero_iff]
  exact panelimage_read_property

end TileDBImage
